import Mathlib

/-!
Shallow embedding of the jsonrpclib protocol engine
(`jsonrpclib/client_protocol.py` and `jsonrpclib/server_protocol.py`)
together with proofs settling the frozen claims about it.

Modelling conventions:
* JSON values are the inductive `Json` below; Python `None` is `Json.null`,
  Python tuples and lists are both `Json.arr`, dictionaries are ordered
  association lists (`Json.obj`), matching Python 3 insertion-ordered dicts.
* The underlying JSON text codec (`jdumps`/`jloads`) is an out-of-scope
  external collaborator (spec section 1), so serialisation is modelled as the
  identity on parsed values: a wire string is represented by the `Json` value
  it parses to, and an empty/absent body by `Option.none`.
* `jsonclass` bean marshalling is likewise out of scope; on JSON-native
  values (the only values the claims quantify over) `jsonclass.dump` and
  `jsonclass.load` are the identity, which is how they are modelled here.
* JSON-RPC version numbers are Python floats restricted to the exact decimal
  values the library uses (1.0, 1.1, 2.0, ...); they are modelled as `Rat`,
  on which all the comparisons performed by the source are exact.
* Exceptions are modelled with `Except`; the distinct Python exception
  classes raised by the code are distinct constructors.
-/

namespace JsonRpc

/-- JSON values, as produced by parsing a request or response body. -/
inductive Json where
  | null
  | bool (b : Bool)
  | num (n : Int)
  | str (s : String)
  | arr (elems : List Json)
  | obj (entries : List (String × Json))

/-- Lookup of a key in an (insertion-ordered) Python dictionary. -/
def lookupKey : List (String × Json) → String → Option Json
  | [], _ => none
  | (k, v) :: rest, key => if k = key then some v else lookupKey rest key

/-- Python `key in dict`. -/
def hasKey (kvs : List (String × Json)) (key : String) : Bool :=
  (lookupKey kvs key).isSome

/-- Python `dict[key] = value`: replaces in place, else appends (dict order). -/
def setKey : List (String × Json) → String → Json → List (String × Json)
  | [], key, v => [(key, v)]
  | (k, w) :: rest, key, v =>
    if k = key then (k, v) :: rest else (k, w) :: setKey rest key v

/-- Python `del dict[key]` (keys are unique in a dict). -/
def delKey : List (String × Json) → String → List (String × Json)
  | [], _ => []
  | (k, w) :: rest, key => if k = key then rest else (k, w) :: delKey rest key

/-- Python `dict.setdefault(key, value)`. -/
def setdefaultKey (kvs : List (String × Json)) (key : String) (v : Json) :
    List (String × Json) :=
  if hasKey kvs key then kvs else kvs ++ [(key, v)]

/-- Field access on a JSON object (`none` on missing key or non-object). -/
def Json.jget : Json → String → Option Json
  | .obj kvs, k => lookupKey kvs k
  | _, _ => none

/-- Python `key in value` for an object. -/
def Json.hasKeyJ (j : Json) (k : String) : Bool :=
  (j.jget k).isSome

/-- Python `x is None`. -/
def Json.isNull : Json → Bool
  | .null => true
  | _ => false

/-- Python `x == ""`. -/
def Json.isEmptyStr : Json → Bool
  | .str s => s = ""
  | _ => false

/-- Python `isinstance(x, str)`. -/
def Json.isStr : Json → Bool
  | .str _ => true
  | _ => false

/-- Python `isinstance(x, (list, tuple))`. -/
def Json.isArr : Json → Bool
  | .arr _ => true
  | _ => false

/-- Python `isinstance(x, dict)`. -/
def Json.isObj : Json → Bool
  | .obj _ => true
  | _ => false

/-- Python truthiness of a JSON-native value. -/
def pyTruthy : Json → Bool
  | .null => false
  | .bool b => b
  | .num n => n != 0
  | .str s => s != ""
  | .arr xs => !xs.isEmpty
  | .obj kvs => !kvs.isEmpty

/-- Python type name of a JSON-native value (used in fault messages only). -/
def typeName : Json → String
  | .null => "NoneType"
  | .bool _ => "bool"
  | .num _ => "int"
  | .str _ => "str"
  | .arr _ => "list"
  | .obj _ => "dict"

/-- Abbreviated rendering of a value inside fault messages.  The exact
message text is irrelevant to every claim, so nested values are elided. -/
def jsonRepr : Json → String
  | .null => "None"
  | .bool b => if b then "True" else "False"
  | .num n => toString n
  | .str s => "'" ++ s ++ "'"
  | .arr _ => "[...]"
  | .obj _ => "{...}"

/-- Numeric value of a decimal digit character. -/
def digitVal (c : Char) : Nat := c.toNat - 48

/-- Natural number denoted by a list of decimal digits. -/
def natOfDigits (cs : List Char) : Nat :=
  cs.foldl (fun acc c => 10 * acc + digitVal c) 0

/-- Whitespace stripping on both ends (Python `str.strip()` as performed by
`float`), done on character lists. -/
def trimChars (cs : List Char) : List Char :=
  ((cs.dropWhile Char.isWhitespace).reverse.dropWhile Char.isWhitespace).reverse

/-- Test whether the second character list heads the first. -/
def startsWithChars : List Char → List Char → Bool
  | _, [] => true
  | [], _ :: _ => false
  | h :: t, n :: m => h = n && startsWithChars t m

/-- Substring test on character lists (Python `needle in hay`). -/
def containsChars : List Char → List Char → Bool
  | [], needle => needle.isEmpty
  | h :: t, needle => startsWithChars (h :: t) needle || containsChars t needle

/-- Parsing of a plain decimal literal (optional sign, digits, optional
fractional part), as accepted by Python `float(str)`.  Exponent, infinity
and NaN notations are not modelled; no claim involves them. -/
def parseDecimal (s : String) : Option Rat :=
  let cs := trimChars s.toList
  let signed : Bool × List Char :=
    match cs with
    | '-' :: rest => (true, rest)
    | '+' :: rest => (false, rest)
    | _ => (false, cs)
  let neg := signed.1
  let body := signed.2
  let ip := body.takeWhile (fun c => c ≠ '.')
  let rest := body.dropWhile (fun c => c ≠ '.')
  let fp : Option (List Char) :=
    match rest with
    | [] => some []
    | '.' :: f => if f.contains '.' then none else some f
    | _ => none
  match fp with
  | none => none
  | some f =>
    if ip.isEmpty ∧ f.isEmpty then none
    else if ip.all Char.isDigit ∧ f.all Char.isDigit then
      let scale : Nat := 10 ^ f.length
      let scaled : Int := natOfDigits ip * scale + natOfDigits f
      some (mkRat (if neg then -scaled else scaled) scale)
    else none

/-- Python `str(float(v))` for the protocol versions the library uses
(1.0, 1.1, 2.0); the fallback rendering is never reached by those. -/
def verStr (v : Rat) : String :=
  if v.den = 1 then toString v.num ++ ".0"
  else if v.den = 10 then toString (v.num / 10) ++ "." ++ toString (v.num % 10)
  else toString v.num ++ "/" ++ toString v.den

/-- Configuration of the protocol (`jsonrpclib/config.py`); only the
`version` field is relevant to the protocol engine. -/
structure Config where
  version : Rat
deriving DecidableEq

/-- Exceptions raised by the payload codec (`dump` in
`client_protocol.py`). -/
inductive PyErr where
  | typeError (msg : String)
  | valueError (msg : String)
deriving DecidableEq

/-- JSON-RPC error value (`Fault` in `client_protocol.py`).  The held
configuration is reduced to its `version` component via `Config`. -/
structure Fault where
  faultCode : Int
  faultString : String
  rpcid : Json
  config : Config
  data : Json

/-- Value given to `dump` as its `params` argument: either a JSON-native
value (Python `None` being `Json.null`) or a `Fault` instance. -/
inductive DumpParams where
  | json (j : Json)
  | fault (f : Fault)

/-- Python `params is None` on a `dump` params argument. -/
def DumpParams.isNone : DumpParams → Bool
  | .json .null => true
  | _ => false

/-- JSON-RPC content handler (`Payload` in `client_protocol.py`). -/
structure Payload where
  id : Json
  version : Rat

/-- Defaulting of a version argument
(`if not version: version = config.version`; a falsy `0.0` also falls
back). -/
def versionOrConfig (version : Option Rat) (config : Config) : Rat :=
  match version with
  | some x => if x = 0 then config.version else x
  | none => config.version

/-- Constructor logic of `Payload.__init__`: a falsy `version` argument
falls back to the configured version. -/
def Payload.make (rpcid : Json) (version : Option Rat) (config : Config) :
    Payload :=
  { id := rpcid, version := versionOrConfig version config }

/-- Method-call request preparation (`Payload.request`).  `fresh` stands for
the `str(uuid.uuid4())` generated when no truthy request id is present. -/
def Payload.request (p : Payload) (fresh : String) (method : Json)
    (params : Json) : Except PyErr Json :=
  match method with
  | .str m =>
    let idv := if pyTruthy p.id then p.id else .str fresh
    let req := [("id", idv), ("method", Json.str m)]
    let req :=
      if pyTruthy params ∨ p.version < mkRat 11 10 then
        req ++ [("params", if pyTruthy params then params else .arr [])]
      else req
    let req :=
      if p.version ≥ 2 then req ++ [("jsonrpc", Json.str (verStr p.version))]
      else req
    .ok (.obj req)
  | _ => .error (.valueError "Method name must be a string.")

/-- Notification preparation (`Payload.notify`): a request whose id entry is
removed (version ≥ 2) or nulled (version 1). -/
def Payload.notify (p : Payload) (fresh : String) (method : Json)
    (params : Json) : Except PyErr Json :=
  match p.request fresh method params with
  | .error e => .error e
  | .ok (.obj kvs) =>
    if p.version ≥ 2 then .ok (.obj (delKey kvs "id"))
    else .ok (.obj (setKey kvs "id" .null))
  | .ok other => .ok other

/-- Response preparation (`Payload.response`). -/
def Payload.response (p : Payload) (result : Json) : Json :=
  let r := [("result", result), ("id", p.id)]
  if p.version ≥ 2 then .obj (r ++ [("jsonrpc", Json.str (verStr p.version))])
  else .obj (r ++ [("error", Json.null)])

/-- Error-response preparation (`Payload.error`). -/
def Payload.error (p : Payload) (code : Int) (message : String)
    (data : Json) : Json :=
  let e :=
    match p.response .null with
    | .obj kvs => kvs
    | _ => []
  let e := if p.version ≥ 2 then delKey e "result" else setKey e "result" .null
  let errObj := [("code", Json.num code), ("message", Json.str message)]
  let errObj := if data.isNull then errObj else errObj ++ [("data", data)]
  .obj (setKey e "error" (.obj errObj))

/-- Validity of the `params` argument of `dump`: Python
`isinstance(params, (tuple, list, dict, Fault))`, with `NoneType` also
accepted for responses. -/
def validParams (p : DumpParams) (is_response : Bool) : Bool :=
  match p with
  | .fault _ => true
  | .json (.arr _) => true
  | .json (.obj _) => true
  | .json .null => is_response
  | .json _ => false

/-- Preparation of a JSON-RPC dictionary (`dump` in `client_protocol.py`).
The extra `fresh` argument threads the uuid used when a request id must be
generated. -/
def dump (params : DumpParams) (methodname : Json) (rpcid : Json)
    (version : Option Rat) (is_response : Bool) (is_notify : Bool)
    (config : Config) (fresh : String) : Except PyErr Json :=
  let ver : Rat := versionOrConfig version config
  let params :=
    if ¬is_response ∧ params.isNone then DumpParams.json (.arr [])
    else params
  if methodname.isStr ∧ ¬validParams params is_response then
    .error (.typeError "Params must be a dict, list, tuple or Fault instance.")
  else
    let payload := Payload.make rpcid (some ver) config
    match params with
    | .fault f => .ok (payload.error f.faultCode f.faultString f.data)
    | .json pj =>
      if ¬methodname.isStr ∧ ¬is_response then
        .error (.valueError
          "Method name must be a string, or is_response must be set to True.")
      else if is_response then
        if rpcid.isNull then
          .error (.valueError "A method response must have an rpcid.")
        else .ok (payload.response pj)
      else if is_notify then payload.notify fresh methodname pj
      else payload.request fresh methodname pj

/-- Preparation of a JSON-RPC request/response string (`dumps`); the JSON
text encoder being external, the result is the dictionary it serialises. -/
def dumps (params : DumpParams) (methodname : Json) (methodresponse : Bool)
    (rpcid : Json) (version : Option Rat) (notify : Bool) (config : Config)
    (fresh : String) : Except PyErr Json :=
  dump params methodname rpcid version methodresponse notify config fresh

/-- Parsing of a JSON-RPC request/response string (`loads`): an empty body
is a notification result (`none`); otherwise the parsed value is returned,
bean conversion being the identity on JSON-native values. -/
def loads (data : Option Json) : Option Json :=
  match data with
  | none => none
  | some j => some j

/-- Wire form of a `Fault` (`Fault.dump`): returns the response dictionary
together with the fault object as it stands after the call (the source
assigns `self.rpcid` when a truthy `rpcid` argument is given). -/
def Fault.dump (f : Fault) (rpcid : Json) (version : Option Rat) :
    Except PyErr Json × Fault :=
  let ver : Rat := versionOrConfig version f.config
  let f2 := if pyTruthy rpcid then { f with rpcid := rpcid } else f
  (JsonRpc.dump (.fault f2) .null f2.rpcid (some ver) true false f2.config "",
    f2)

/-- String form of a `Fault` (`Fault.response`): same content as
`Fault.dump`, the JSON text encoding being external. -/
def Fault.response (f : Fault) (rpcid : Json) (version : Option Rat) :
    Except PyErr Json × Fault :=
  let ver : Rat := versionOrConfig version f.config
  let f2 := if pyTruthy rpcid then { f with rpcid := rpcid } else f
  (dumps (.fault f2) .null true f2.rpcid (some ver) false f2.config "", f2)

/-- Convenience form of `Fault.dump` with default arguments (`fault.dump()`
as called by the server paths); the fault path of `dump` never raises. -/
def Fault.dumpD (f : Fault) : Json :=
  match (f.dump .null none).1 with
  | .ok j => j
  | .error _ => .null

/-- Single-entry payloads of the exceptions raised by `check_for_errors`:
the argument of a `ProtocolError` is either the `(code, message)` pair of a
coded error object or a raw error value. -/
inductive PEArg where
  | pair (code : Int) (message : Json)
  | raw (v : Json)

/-- Exceptions raised by `check_for_errors` (`client_protocol.py`):
`TypeError`, `NotImplementedError`, `ValueError`, `ProtocolError` and
`AppError` (`exceptions.py`; an `AppError` argument is the
`(code, message, data)` triple). -/
inductive CheckErr where
  | typeErr (msg : String)
  | notImpl (msg : String)
  | valueErr (msg : String)
  | protocolErr (arg : PEArg)
  | appErr (code : Json) (message : Json) (data : Json)

/-- Data value carried by a raised failure, when any: only an `AppError`
carries the error object's `data` entry. -/
def CheckErr.carriedData : CheckErr → Option Json
  | .appErr _ _ d => some d
  | _ => none

/-- Python `float(v)` coercion on a JSON-native value, as applied to the
`"jsonrpc"` entry by `check_for_errors`; raises `TypeError` on non-numeric
non-string values and `ValueError` on unparseable strings. -/
def pyFloat : Json → Except CheckErr Rat
  | .num n => .ok (mkRat n 1)
  | .bool b => .ok (if b then 1 else 0)
  | .str s =>
    match parseDecimal s with
    | some q => .ok q
    | none => .error (.valueErr "could not convert string to float")
  | _ => .error (.typeErr "float() argument must be a string or a number")

/-- Message extraction of `check_for_errors`: the `message` entry if
present, else the jabsorb `trace` entry, else a placeholder. -/
def errorMessageOf (e : List (String × Json)) : Json :=
  match lookupKey e "message" with
  | some m => m
  | none => (lookupKey e "trace").getD (.str "<no error message>")

/-- Version guard of `check_for_errors`: a `"jsonrpc"` entry whose float
value exceeds 2.0 raises `NotImplementedError`; a non-floatable entry
propagates the error raised by `float()`. -/
def jsonrpcVersionGuard (kvs : List (String × Json)) : Except CheckErr Unit :=
  match lookupKey kvs "jsonrpc" with
  | none => .ok ()
  | some jv =>
    match pyFloat jv with
    | .ok q =>
      if q > 2 then
        .error (.notImpl "JSON-RPC version not yet supported.")
      else .ok ()
    | .error e => .error e

/-- Classification of a result dictionary (`check_for_errors`):
passes a no-error dictionary through, raises a typed failure otherwise. -/
def check_for_errors (result : Json) : Except CheckErr Json :=
  if ¬pyTruthy result then .ok result
  else
    match result with
    | .obj kvs =>
      match jsonrpcVersionGuard kvs with
      | .error e => .error e
      | .ok _ =>
        if ¬hasKey kvs "result" ∧ ¬hasKey kvs "error" then
          .error (.valueErr "Response does not have a result or error key.")
        else
          match lookupKey kvs "error" with
          | some errv =>
            if pyTruthy errv then
              match errv with
              | .obj e =>
                if hasKey e "code" then
                  match lookupKey e "code" with
                  | some (.num code) =>
                    let message := errorMessageOf e
                    if -32700 ≤ code ∧ code ≤ -32000 then
                      .error (.protocolErr (.pair code message))
                    else
                      .error (.appErr (.num code) message
                        ((lookupKey e "data").getD .null))
                  | _ =>
                    -- comparing a non-integer code against the reserved
                    -- range raises TypeError in Python 3
                    .error (.typeErr "unorderable comparison of error code")
                else if e.length = 1 then
                  .error (.protocolErr (.raw
                    (match e with
                     | (_, v) :: _ => v
                     | [] => .null)))
                else .error (.protocolErr (.raw (.obj e)))
              | .arr xs =>
                -- Python `"code" in list` is membership; a hit then makes
                -- the `["code"]` indexing raise TypeError
                if xs.any (fun x =>
                    match x with
                    | .str s => s = "code"
                    | _ => false) then
                  .error (.typeErr "list indices must be integers")
                else .error (.protocolErr (.raw (.arr xs)))
              | .str s =>
                -- Python `"code" in str` is a substring test; a hit then
                -- makes the `["code"]` indexing raise TypeError
                if containsChars s.toList "code".toList then
                  .error (.typeErr "string indices must be integers")
                else .error (.protocolErr (.raw (.str s)))
              | _ =>
                -- `"code" in <number or bool>` raises TypeError
                .error (.typeErr "argument is not iterable")
            else .ok result
          | none => .ok result
    | _ => .error (.typeErr "Response is not a dict.")

/-- Notification test on the client side (`isnotification`): true exactly
when the `id` entry is present and `None`, or absent. -/
def isnotification (request : List (String × Json)) : Bool :=
  match lookupKey request "id" with
  | some v => v.isNull
  | none => true

/-!
Server side (`jsonrpclib/server_protocol.py`).

The method registry of the dispatcher (`self.funcs`, inherited from
`SimpleXMLRPCDispatcher`) is an exact-name map to callables; a registered
instance resolves the remaining names.  A user-supplied callable is
modelled as a Lean function from its (positional or keyword) parameters to
an outcome: a returned JSON-native value, a raised `TypeError` (parameter
mismatch), or any other raised exception (name and condensed trace).
-/

/-- Parameters handed to a resolved method: `func(*params)` for a list,
`func(**params)` for a dictionary. -/
inductive CallParams where
  | pos (args : List Json)
  | kw (entries : List (String × Json))

/-- Outcome of invoking a user-supplied method. -/
inductive CallResult where
  | ok (value : Json)
  | typeErr (msg : String)
  | exc (name : String) (msg : String)

/-- User-supplied callable registered with the dispatcher. -/
def RpcFunc := CallParams → CallResult

/-- Exact-name registry lookup (`self.funcs[method]`). -/
def lookupFunc : List (String × RpcFunc) → String → Option RpcFunc
  | [], _ => none
  | (k, f) :: rest, key => if k = key then some f else lookupFunc rest key

/-- Registered instance (`self.instance`): an optional custom `_dispatch`
attribute (whose own escaping `AttributeError` falls back to dotted
resolution), plus the dotted-path attribute resolution performed by the
standard-library `resolve_dotted_attribute`, modelled as a partial map from
method names to callables (`AttributeError` = `none`). -/
structure Instance where
  customDispatch : Option (String → Json → Except Unit RpcFunc)
  resolveDotted : String → Option RpcFunc

/-- Protocol handler state (`JsonRpcProtocolHandler`): configuration,
method registry, optional instance and whether a notification thread pool
is set (`self.__notification_pool is not None`). -/
structure Handler where
  json_config : Config
  funcs : List (String × RpcFunc)
  inst : Option Instance
  hasPool : Bool

/-- Version inference of an inbound request (`get_version`). -/
def get_version (request : Json) : Option Rat :=
  if request.hasKeyJ "jsonrpc" then some 2
  else if request.hasKeyJ "id" then some 1
  else none

/-- Request validation (`validate_request`): returns the request with its
`params` entry defaulted (the source mutates the dictionary in place via
`setdefault`), or the `-32600` fault rejecting it. -/
def validate_request (request : Json) (json_config : Config) :
    Except Fault Json :=
  match request with
  | .obj kvs =>
    let rpcid := (lookupKey kvs "id").getD .null
    match get_version (.obj kvs) with
    | none =>
      .error { faultCode := -32600,
               faultString := "Request " ++ jsonRepr (.obj kvs) ++ " invalid.",
               rpcid := rpcid, config := json_config, data := .null }
    | some _ =>
      let kvs := setdefaultKey kvs "params" (.arr [])
      let method := (lookupKey kvs "method").getD .null
      let params := (lookupKey kvs "params").getD .null
      if ¬pyTruthy method ∨ ¬method.isStr ∨ ¬(params.isArr ∨ params.isObj) then
        .error { faultCode := -32600,
                 faultString := "Invalid request parameters or method.",
                 rpcid := rpcid, config := json_config, data := .null }
      else .ok (.obj kvs)
  | other =>
    .error { faultCode := -32600,
             faultString := "Request must be a dict, not " ++ typeName other,
             rpcid := .null, config := json_config, data := .null }

/-- Fault construction helper (`JsonRpcProtocolHandler.make_fault`). -/
def Handler.make_fault (h : Handler) (code : Int) (message : String)
    (config : Option Config) : Fault :=
  { faultCode := code, faultString := message, rpcid := .null,
    config := config.getD h.json_config, data := .null }

/-- Method resolution (`JsonRpcProtocolHandler._resolve_method`): registry
first, then the instance's custom dispatcher, then dotted-path attribute
resolution; `none` when every step fails. -/
def resolve_method (h : Handler) (method : String) (params : Json) :
    Option RpcFunc :=
  match lookupFunc h.funcs method with
  | some f => some f
  | none =>
    match h.inst with
    | none => none
    | some i =>
      match i.customDispatch with
      | some d =>
        match d method params with
        | .ok f => some f
        | .error _ => i.resolveDotted method
      | none => i.resolveDotted method

/-- Default method resolver and caller
(`JsonRpcProtocolHandler._dispatch`): returns the method result, or the
`Fault` value mapping a failure (`-32602` on `TypeError`, `-32603` on any
other exception, `-32601` when the method cannot be resolved). -/
def Handler.dispatchMethod (h : Handler) (method : String) (params : Json)
    (config : Option Config) : DumpParams :=
  let cfg := config.getD h.json_config
  match resolve_method h method params with
  | some f =>
    let outcome :=
      match params with
      | .arr xs => f (.pos xs)
      | .obj kvs => f (.kw kvs)
      | _ =>
        -- `func(**params)` with a non-mapping raises TypeError at the call
        .typeErr "argument after ** must be a mapping"
    match outcome with
    | .ok v => .json v
    | .typeErr m =>
      .fault (h.make_fault (-32602) ("Invalid parameters: " ++ m) (some cfg))
    | .exc n m =>
      .fault (h.make_fault (-32603) ("Server error: " ++ n ++ " | " ++ m)
        (some cfg))
  | none =>
    .fault (h.make_fault (-32601) ("Method " ++ method ++ " not supported.")
      (some cfg))

/-- Single-call dispatch
(`JsonRpcProtocolHandler._dispatch_caller_single`, default
`dispatch_method`): decides notification handling, invokes the method and
assembles the response; `none` when the request is a notification.  The
version-downgrade branch builds a fresh configuration copy
(`self.json_config.copy()`), so the handler itself is never mutated.  A
non-string `method` value never reaches this point (`validate_request`
guards it); its registry lookup and dotted resolution would fail exactly as
the `-32601` fallback below. -/
def Handler.dispatch_caller_single (h : Handler) (request : Json) :
    Option Json :=
  let method := (request.jget "method").getD .null
  let params := (request.jget "params").getD .null
  let config :=
    if ¬request.hasKeyJ "jsonrpc" ∧ h.json_config.version ≥ 2 then
      { h.json_config with version := 1 }
    else h.json_config
  let idv := (request.jget "id").getD .null
  let is_notification : Bool :=
    !request.hasKeyJ "id" || idv.isNull || idv.isEmptyStr
  if is_notification ∧ h.hasPool then
    -- the invocation is enqueued on the notification pool; no response
    none
  else
    let response : DumpParams :=
      match method with
      | .str m => h.dispatchMethod m params (some config)
      | other =>
        .fault (h.make_fault (-32601)
          ("Method " ++ jsonRepr other ++ " not supported.") (some config))
    if is_notification then none
    else
      match request.jget "id" with
      | some rid =>
        match dump response .null rid none true false config "" with
        | .ok j => some j
        | .error _ =>
          some ((h.make_fault (-32603) "JSON conversion exception"
            (some config)).dumpD)
      | none =>
        -- `request["id"]` raising KeyError inside the assembly try-block
        some ((h.make_fault (-32603) "KeyError: id" (some config)).dumpD)

/-- Validation plus dispatch of one call
(`JsonRpcProtocolHandler._handle_single_call`). -/
def Handler.handle_single_call (h : Handler) (request : Json) :
    Option Json :=
  match validate_request request h.json_config with
  | .error f => some f.dumpD
  | .ok validated => h.dispatch_caller_single validated

/-- Dispatch of a parsed request or batch
(`JsonRpcProtocolHandler.handle_request_dict`); the `Except` error is the
`NoMulticallResult` exception raised on an all-skipped batch. -/
def Handler.handle_request_dict (h : Handler) (request : Option Json) :
    Except Unit (Option Json) :=
  let req := request.getD .null
  if ¬pyTruthy req then
    .ok (some ((h.make_fault (-32600) "Request invalid -- no request data."
      none).dumpD))
  else
    match req with
    | .arr subs =>
      let responses := subs.filterMap h.handle_single_call
      if responses.isEmpty then .error ()
      else .ok (some (.arr responses))
    | single => .ok (h.handle_single_call single)

/-- String-level entry point
(`JsonRpcProtocolHandler.handle_request_str`): the body is a parsed value
(`none` for an empty body) or the message of the `ValueError` raised by
JSON parsing; `NoMulticallResult` becomes "no content". -/
def Handler.handle_request_str (h : Handler)
    (body : Except String (Option Json)) : Option Json :=
  match body with
  | .error errMsg =>
    some ((h.make_fault (-32700) ("Request invalid. (" ++ errMsg ++ ")")
      none).dumpD)
  | .ok request =>
    match h.handle_request_dict request with
    | .error _ => none
    | .ok r => r

/-!
Shape lemmas about the payload codec, shared by the claim theorems below.
-/

/-- Exact shape of a version-1 response dictionary. -/
theorem payload_response_v1 (p : Payload) (r : Json) (hv : p.version < 2) :
    p.response r = .obj [("result", r), ("id", p.id), ("error", .null)] := by
  unfold Payload.response
  rw [if_neg (not_le.mpr hv)]
  rfl

/-- Exact shape of a version-2 response dictionary. -/
theorem payload_response_v2 (p : Payload) (r : Json) (hv : 2 ≤ p.version) :
    p.response r =
      .obj [("result", r), ("id", p.id),
            ("jsonrpc", .str (verStr p.version))] := by
  unfold Payload.response
  rw [if_pos hv]
  rfl

/-- Exact shape of a version-1 error dictionary. -/
theorem payload_error_v1 (p : Payload) (c : Int) (m : String) (d : Json)
    (hv : p.version < 2) :
    p.error c m d =
      .obj [("result", .null), ("id", p.id),
            ("error", .obj
              (if d.isNull then [("code", Json.num c), ("message", Json.str m)]
               else [("code", Json.num c), ("message", Json.str m),
                     ("data", d)]))] := by
  unfold Payload.error
  rw [payload_response_v1 p .null hv]
  simp only [ge_iff_le, if_neg (not_le.mpr hv)]
  by_cases hd : d.isNull <;> simp [hd, setKey]

/-- Exact shape of a version-2 error dictionary. -/
theorem payload_error_v2 (p : Payload) (c : Int) (m : String) (d : Json)
    (hv : 2 ≤ p.version) :
    p.error c m d =
      .obj [("id", p.id), ("jsonrpc", .str (verStr p.version)),
            ("error", .obj
              (if d.isNull then [("code", Json.num c), ("message", Json.str m)]
               else [("code", Json.num c), ("message", Json.str m),
                     ("data", d)]))] := by
  unfold Payload.error
  rw [payload_response_v2 p .null hv]
  simp only [ge_iff_le, if_pos hv]
  by_cases hd : d.isNull <;> simp [hd, setKey, delKey]

/-- Entries of the error object built by `Payload.error`. -/
def errEntries (c : Int) (m : String) (d : Json) : List (String × Json) :=
  if d.isNull then [("code", Json.num c), ("message", Json.str m)]
  else [("code", Json.num c), ("message", Json.str m), ("data", d)]

/-- Reformulation of the error-shape lemmas through `errEntries`. -/
theorem payload_error_cases (p : Payload) (c : Int) (m : String) (d : Json) :
    p.error c m d =
      (if 2 ≤ p.version then
        Json.obj [("id", p.id), ("jsonrpc", .str (verStr p.version)),
                  ("error", .obj (errEntries c m d))]
      else
        Json.obj [("result", .null), ("id", p.id),
                  ("error", .obj (errEntries c m d))]) := by
  by_cases hv : 2 ≤ p.version
  · rw [if_pos hv, payload_error_v2 p c m d hv]; rfl
  · rw [if_neg hv, payload_error_v1 p c m d (not_le.mp hv)]; rfl

/-- Version of `payload_error_cases` for a literal payload. -/
theorem payload_error_mk_cases (rid : Json) (v : Rat) (c : Int) (m : String)
    (d : Json) :
    Payload.error ⟨rid, v⟩ c m d =
      (if 2 ≤ v then
        Json.obj [("id", rid), ("jsonrpc", .str (verStr v)),
                  ("error", .obj (errEntries c m d))]
      else
        Json.obj [("result", .null), ("id", rid),
                  ("error", .obj (errEntries c m d))]) :=
  payload_error_cases ⟨rid, v⟩ c m d

/-- Version of the response-shape lemmas for a literal payload. -/
theorem payload_response_mk_cases (rid : Json) (v : Rat) (r : Json) :
    Payload.response ⟨rid, v⟩ r =
      (if 2 ≤ v then
        Json.obj [("result", r), ("id", rid),
                  ("jsonrpc", .str (verStr v))]
      else
        Json.obj [("result", r), ("id", rid), ("error", .null)]) := by
  by_cases hv : 2 ≤ v
  · rw [if_pos hv, payload_response_v2 ⟨rid, v⟩ r hv]
  · rw [if_neg hv, payload_response_v1 ⟨rid, v⟩ r (not_le.mp hv)]

/-- Fault-valued params short-circuit `dump` into `Payload.error`. -/
theorem dump_fault_eq (f : Fault) (mname rpcid : Json) (version : Option Rat)
    (is_response is_notify : Bool) (cfg : Config) (fresh : String) :
    dump (.fault f) mname rpcid version is_response is_notify cfg fresh =
      .ok ((Payload.make rpcid (some (versionOrConfig version cfg)) cfg).error
        f.faultCode f.faultString f.data) := by
  unfold dump
  simp [validParams, DumpParams.isNone]

/-!
Claim C7 — wire shape of encoded responses.
-/

/-- C7 (amended): a version-1 encoded response always carries both the
`result` and `error` keys with at most one of them non-null — `error` is
null on a success (whose `result` may itself legitimately be null) and
`result` is null on an error, whose `error` object is non-null — and no
`jsonrpc` key; a version-2 encoded response carries exactly one of
`result`/`error` plus a `"jsonrpc"` version tag. -/
theorem response_wire_shape (idv : Json) (v : Rat) (r : Json) (c : Int)
    (m : String) (d : Json) :
    (v < 2 →
      (Payload.response ⟨idv, v⟩ r).jget "result" = some r ∧
      (Payload.response ⟨idv, v⟩ r).jget "error" = some .null ∧
      (Payload.response ⟨idv, v⟩ r).hasKeyJ "jsonrpc" = false ∧
      (Payload.error ⟨idv, v⟩ c m d).jget "result" = some .null ∧
      (Payload.error ⟨idv, v⟩ c m d).jget "error" =
        some (.obj (errEntries c m d)) ∧
      Json.obj (errEntries c m d) ≠ .null ∧
      (Payload.error ⟨idv, v⟩ c m d).hasKeyJ "jsonrpc" = false) ∧
    (2 ≤ v →
      (Payload.response ⟨idv, v⟩ r).jget "result" = some r ∧
      (Payload.response ⟨idv, v⟩ r).hasKeyJ "error" = false ∧
      (Payload.response ⟨idv, v⟩ r).jget "jsonrpc" =
        some (.str (verStr v)) ∧
      (Payload.error ⟨idv, v⟩ c m d).hasKeyJ "result" = false ∧
      (Payload.error ⟨idv, v⟩ c m d).jget "error" =
        some (.obj (errEntries c m d)) ∧
      (Payload.error ⟨idv, v⟩ c m d).jget "jsonrpc" =
        some (.str (verStr v))) := by
  constructor
  · intro hv
    rw [payload_response_v1 ⟨idv, v⟩ r hv, payload_error_v1 ⟨idv, v⟩ c m d hv]
    refine ⟨rfl, rfl, rfl, rfl, ?_, ?_, rfl⟩
    · unfold errEntries
      by_cases hd : d.isNull <;> simp [hd, Json.jget, lookupKey]
    · unfold errEntries
      by_cases hd : d.isNull <;> simp [hd]
  · intro hv
    rw [payload_response_v2 ⟨idv, v⟩ r hv, payload_error_v2 ⟨idv, v⟩ c m d hv]
    refine ⟨rfl, rfl, rfl, rfl, ?_, rfl⟩
    unfold errEntries
    by_cases hd : d.isNull <;> simp [hd, Json.jget, lookupKey]

/-- Witness for C7 at concrete inputs on both sides of the version split. -/
theorem response_wire_shape_witness :
    ((Payload.response ⟨.num 7, 1⟩ (.num 3)).jget "error" = some .null ∧
      (Payload.response ⟨.num 7, 1⟩ (.num 3)).hasKeyJ "jsonrpc" = false) ∧
    ((Payload.response ⟨.num 7, 2⟩ (.num 3)).hasKeyJ "error" = false ∧
      (Payload.response ⟨.num 7, 2⟩ (.num 3)).jget "jsonrpc" =
        some (.str (verStr 2))) := by
  have h1 := (response_wire_shape (.num 7) 1 (.num 3) (-32000) "m" .null).1
    (by norm_num)
  have h2 := (response_wire_shape (.num 7) 2 (.num 3) (-32000) "m" .null).2
    (by norm_num)
  exact ⟨⟨h1.2.1, h1.2.2.1⟩, ⟨h2.2.1, h2.2.2.1⟩⟩

/-- Counterexample to C7 as stated: a version-1 success response whose
result is null carries `result` and `error` both null, so "exactly one of
them non-null" fails. -/
theorem v1_null_result_both_null :
    (Payload.response ⟨.num 1, 1⟩ .null).jget "result" = some .null ∧
    (Payload.response ⟨.num 1, 1⟩ .null).jget "error" = some .null :=
  ⟨rfl, rfl⟩

/-!
Claim C8 — frame property of the Fault-to-wire conversion.
-/

/-- C8 (amended): converting a `Fault` to its wire form (`Fault.dump` /
`Fault.response`) leaves the fault's code, message and data unchanged, and
leaves its rpcid unchanged whenever the `rpcid` argument is falsy; a truthy
`rpcid` argument, however, overwrites the stored rpcid (the source assigns
`self.rpcid = rpcid`). -/
theorem fault_to_wire_frame (f : Fault) (rpcid : Json)
    (version : Option Rat) :
    ((f.dump rpcid version).2.faultCode = f.faultCode ∧
      (f.dump rpcid version).2.faultString = f.faultString ∧
      (f.dump rpcid version).2.data = f.data ∧
      (pyTruthy rpcid = false → (f.dump rpcid version).2 = f) ∧
      (pyTruthy rpcid = true → (f.dump rpcid version).2.rpcid = rpcid)) ∧
    ((f.response rpcid version).2.faultCode = f.faultCode ∧
      (f.response rpcid version).2.faultString = f.faultString ∧
      (f.response rpcid version).2.data = f.data ∧
      (pyTruthy rpcid = false → (f.response rpcid version).2 = f) ∧
      (pyTruthy rpcid = true →
        (f.response rpcid version).2.rpcid = rpcid)) := by
  unfold Fault.dump Fault.response
  by_cases hr : pyTruthy rpcid <;> simp [hr]

/-- Witness for C8 at a concrete fault and both argument shapes. -/
theorem fault_to_wire_frame_witness :
    (Fault.dump ⟨-32000, "Server error", .null, ⟨2⟩, .null⟩ .null none).2 =
      (⟨-32000, "Server error", .null, ⟨2⟩, .null⟩ : Fault) ∧
    (Fault.dump ⟨-32000, "Server error", .null, ⟨2⟩, .null⟩ (.str "x")
      none).2.faultCode = -32000 :=
  ⟨(fault_to_wire_frame ⟨-32000, "Server error", .null, ⟨2⟩, .null⟩ .null
      none).1.2.2.2.1 rfl,
    (fault_to_wire_frame ⟨-32000, "Server error", .null, ⟨2⟩, .null⟩
      (.str "x") none).1.1⟩

/-- Counterexample to C8 as stated: `Fault.dump` called with the truthy
rpcid argument `"x"` changes the fault's rpcid field from null to `"x"`,
so the conversion is not free of side effects for every argument
combination. -/
theorem fault_dump_mutates_rpcid :
    (Fault.dump ⟨-32000, "Server error", .null, ⟨2⟩, .null⟩ (.str "x")
      none).2.rpcid = .str "x" ∧
    (⟨-32000, "Server error", .null, ⟨2⟩, .null⟩ : Fault).rpcid = .null ∧
    Json.str "x" ≠ Json.null :=
  ⟨rfl, rfl, fun h => Json.noConfusion h⟩

/-!
Claim C4 — failure modes of request encoding.
-/

/-- C4 (amended): on a non-response `dump` call whose method name is a
string, params that are neither a positional sequence, nor a keyword
mapping, nor a `Fault`, raise `TypeError` (not `ValueError`); a non-string
method name on a non-response call whose params are not a `Fault` raises
`ValueError` (Fault-valued params return the error dictionary before the
method-name check fires). -/
theorem dump_request_param_errors
    (p : DumpParams) (mname rpcid : Json) (version : Option Rat)
    (is_notify : Bool) (cfg : Config) (fresh : String)
    (p2 : Json) (mname2 rpcid2 : Json) (version2 : Option Rat)
    (is_notify2 : Bool) (cfg2 : Config) (fresh2 : String)
    (h1 : mname.isStr = true) (h2 : validParams p false = false)
    (h3 : p.isNone = false) (h4 : mname2.isStr = false) :
    dump p mname rpcid version false is_notify cfg fresh =
      .error (.typeError
        "Params must be a dict, list, tuple or Fault instance.") ∧
    dump (.json p2) mname2 rpcid2 version2 false is_notify2 cfg2 fresh2 =
      .error (.valueError
        "Method name must be a string, or is_response must be set to True.")
    := by
  constructor
  · unfold dump
    simp [h1, h2, h3]
  · unfold dump
    by_cases hn : (DumpParams.json p2).isNone <;> simp [hn, h4, validParams]

/-- Witness for C4: numeric params with a string method name, and a null
method name with list params. -/
theorem dump_request_param_errors_witness :
    dump (.json (.num 5)) (.str "m") .null none false false ⟨2⟩ "u" =
      .error (.typeError
        "Params must be a dict, list, tuple or Fault instance.") ∧
    dump (.json (.arr [])) .null .null none false false ⟨2⟩ "u" =
      .error (.valueError
        "Method name must be a string, or is_response must be set to True.")
    := by
  have := dump_request_param_errors (.json (.num 5)) (.str "m") .null none
    false ⟨2⟩ "u" (.arr []) .null .null none false ⟨2⟩ "u" rfl rfl rfl rfl
  exact this

/-- Counterexample to C4 as stated: invalid params on a request-encoding
call raise `TypeError`, not the claimed `ValueError`. -/
theorem dump_invalid_params_not_value_error :
    dump (.json (.num 5)) (.str "m") .null none false false ⟨2⟩ "u" =
      .error (.typeError
        "Params must be a dict, list, tuple or Fault instance.") ∧
    ¬∃ msg, dump (.json (.num 5)) (.str "m") .null none false false ⟨2⟩ "u" =
      .error (.valueError msg) := by
  refine ⟨rfl, ?_⟩
  rintro ⟨msg, hmsg⟩
  rw [show dump (.json (.num 5)) (.str "m") .null none false false ⟨2⟩ "u" =
    .error (.typeError
      "Params must be a dict, list, tuple or Fault instance.") from rfl]
    at hmsg
  simp at hmsg

/-!
Claim C2 — request encode/decode round trip.
-/

/-- C2 (amended): for every method name, truthy (non-empty) positional or
keyword params, truthy id, and version argument 1 or 2, decoding the
encoded request yields back the same method, params and id exactly, with
the version-appropriate wire shape (a `"jsonrpc"` tag exactly for
version 2).  Empty params are instead encoded as an absent `params` key
(version ≥ 1.1) or as the empty list (version 1), and a falsy id is
replaced by a generated unique identifier. -/
theorem request_roundtrip (m : String) (p rid : Json) (v : Rat)
    (cfg : Config) (fresh : String)
    (hp : p.isArr = true ∨ p.isObj = true) (hpt : pyTruthy p = true)
    (hrid : pyTruthy rid = true) (hv : v = 1 ∨ v = 2) :
    ∃ d, dumps (.json p) (.str m) false rid (some v) false cfg fresh =
        .ok d ∧
      loads (some d) = some d ∧
      d.jget "method" = some (.str m) ∧
      d.jget "params" = some p ∧
      d.jget "id" = some rid ∧
      (v = 2 → d.jget "jsonrpc" = some (.str "2.0")) ∧
      (v = 1 → d.hasKeyJ "jsonrpc" = false) := by
  have hn : (DumpParams.json p).isNone = false := by
    cases p <;> simp_all [DumpParams.isNone, pyTruthy]
  have hvp : validParams (.json p) false = true := by
    rcases hp with h | h <;> cases p <;>
      simp_all [validParams, Json.isArr, Json.isObj]
  unfold dumps dump Payload.make Payload.request
  rcases hv with hv | hv <;> subst hv <;>
    (simp [hn, hvp, hpt, hrid, versionOrConfig, Json.isStr, Json.jget,
      Json.hasKeyJ, lookupKey, verStr, loads]; try decide)

/-- Witness for C2 at a concrete version-2 request. -/
theorem request_roundtrip_witness :
    ∃ d, dumps (.json (.arr [.num 1])) (.str "sum") false (.str "a")
        (some 2) false ⟨2⟩ "u" = .ok d ∧
      loads (some d) = some d ∧
      d.jget "method" = some (.str "sum") ∧
      d.jget "params" = some (.arr [.num 1]) ∧
      d.jget "id" = some (.str "a") ∧
      ((2 : Rat) = 2 → d.jget "jsonrpc" = some (.str "2.0")) ∧
      ((2 : Rat) = 1 → d.hasKeyJ "jsonrpc" = false) :=
  request_roundtrip "sum" (.arr [.num 1]) (.str "a") 2 ⟨2⟩ "u"
    (Or.inl rfl) rfl rfl (Or.inr rfl)

/-- Counterexample to C2 as stated: the valid keyword mapping `{}` encoded
at version 1 comes back as the positional sequence `[]`, so params do not
round-trip exactly for every valid params value. -/
theorem request_roundtrip_empty_mapping_params :
    dumps (.json (.obj [])) (.str "m") false (.str "a") (some 1) false ⟨2⟩
        "u" =
      .ok (.obj [("id", .str "a"), ("method", .str "m"),
                 ("params", .arr [])]) ∧
    loads (some (.obj [("id", .str "a"), ("method", .str "m"),
        ("params", .arr [])])) =
      some (.obj [("id", .str "a"), ("method", .str "m"),
                  ("params", .arr [])]) ∧
    (Json.obj [("id", .str "a"), ("method", .str "m"),
        ("params", .arr [])]).jget "params" = some (.arr []) ∧
    Json.arr [] ≠ Json.obj [] :=
  ⟨rfl, rfl, rfl, fun h => Json.noConfusion h⟩

/-!
Claims C3 and C10 — client-side error classification.
-/

/-- Boolean form of "the version guard of `check_for_errors` passes". -/
def jsonrpcGuardOk (kvs : List (String × Json)) : Bool :=
  match lookupKey kvs "jsonrpc" with
  | none => true
  | some jv =>
    match pyFloat jv with
    | .ok q => decide (q ≤ 2)
    | .error _ => false

/-- Passing boolean guard means the version guard raises nothing. -/
theorem guard_ok_elim (kvs : List (String × Json))
    (h : jsonrpcGuardOk kvs = true) : jsonrpcVersionGuard kvs = .ok () := by
  unfold jsonrpcGuardOk at h
  unfold jsonrpcVersionGuard
  cases hj : lookupKey kvs "jsonrpc" with
  | none => rfl
  | some jv =>
    simp only [hj] at h ⊢
    cases hf : pyFloat jv with
    | ok q =>
      simp only [hf, decide_eq_true_eq] at h ⊢
      rw [if_neg (not_lt.mpr h)]
    | error e2 => simp only [hf] at h; cases h

/-- C3 (amended): on a response dictionary whose non-empty error object
carries an integer `code`, `check_for_errors` raises a `ProtocolError`
carrying the original code and message when the code lies in
[-32700, -32000], and an `AppError` carrying the original code, message
and data otherwise (the `ProtocolError` does not carry the data entry);
a dictionary without an error entry but with a result entry passes
through unchanged. -/
theorem check_for_errors_classification
    (kvs e kvs2 : List (String × Json)) (code : Int)
    (h1 : pyTruthy (.obj kvs) = true)
    (h2 : jsonrpcGuardOk kvs = true)
    (h3 : lookupKey kvs "error" = some (.obj e))
    (h4 : pyTruthy (.obj e) = true)
    (h5 : lookupKey e "code" = some (.num code))
    (h6 : pyTruthy (.obj kvs2) = true)
    (h7 : jsonrpcGuardOk kvs2 = true)
    (h8 : lookupKey kvs2 "error" = none)
    (h9 : hasKey kvs2 "result" = true) :
    check_for_errors (.obj kvs) =
      .error (if -32700 ≤ code ∧ code ≤ -32000 then
          .protocolErr (.pair code (errorMessageOf e))
        else
          .appErr (.num code) (errorMessageOf e)
            ((lookupKey e "data").getD .null)) ∧
    check_for_errors (.obj kvs2) = .ok (.obj kvs2) := by
  constructor
  · unfold check_for_errors
    have hg := guard_ok_elim kvs h2
    have hkey : hasKey kvs "error" = true := by
      unfold hasKey; rw [h3]; rfl
    have hck : hasKey e "code" = true := by
      unfold hasKey; rw [h5]; rfl
    simp only [h1, hg, h3, h4, h5, hkey, hck, not_true, Bool.not_eq_true,
      false_and, and_false, ite_false, if_false]
    by_cases hc : (-32700 ≤ code ∧ code ≤ -32000) <;> simp [hc]
  · unfold check_for_errors
    have hg := guard_ok_elim kvs2 h7
    simp [h6, hg, h8, h9]

/-- Witness for C3: a method-not-found protocol error and a plain success
response. -/
theorem check_for_errors_classification_witness :
    check_for_errors (.obj [("error", .obj [("code", .num (-32601)),
        ("message", .str "not found")]), ("id", .num 1)]) =
      .error (if -32700 ≤ (-32601 : Int) ∧ (-32601 : Int) ≤ -32000 then
          .protocolErr (.pair (-32601)
            (errorMessageOf [("code", .num (-32601)),
              ("message", .str "not found")]))
        else
          .appErr (.num (-32601))
            (errorMessageOf [("code", .num (-32601)),
              ("message", .str "not found")])
            ((lookupKey [("code", Json.num (-32601)),
              ("message", Json.str "not found")] "data").getD .null)) ∧
    check_for_errors (.obj [("jsonrpc", .str "2.0"), ("result", .num 3),
        ("id", .num 1)]) =
      .ok (.obj [("jsonrpc", .str "2.0"), ("result", .num 3),
                 ("id", .num 1)]) :=
  check_for_errors_classification
    [("error", .obj [("code", .num (-32601)), ("message", .str "not found")]),
      ("id", .num 1)]
    [("code", .num (-32601)), ("message", .str "not found")]
    [("jsonrpc", .str "2.0"), ("result", .num 3), ("id", .num 1)]
    (-32601) rfl rfl rfl rfl rfl rfl (by decide) rfl rfl

/-- Counterexample to C3 as stated: a reserved-range error object carrying
a `data` entry raises a `ProtocolError` that carries only the code and
message — the data value 7 is dropped, not carried. -/
theorem protocol_error_drops_data :
    check_for_errors (.obj [("error", .obj [("code", .num (-32000)),
        ("message", .str "m"), ("data", .num 7)]), ("id", .num 1)]) =
      .error (.protocolErr (.pair (-32000) (.str "m"))) ∧
    CheckErr.carriedData (.protocolErr (.pair (-32000) (.str "m"))) = none :=
  ⟨rfl, rfl⟩

/-- C10 (confirmed): a truthy response dictionary whose `"jsonrpc"` entry
floats to a value strictly above 2.0 is rejected with
`NotImplementedError` regardless of any result or error entries. -/
theorem version_above_two_rejected (kvs : List (String × Json)) (jv : Json)
    (q : Rat)
    (h1 : pyTruthy (.obj kvs) = true)
    (h2 : lookupKey kvs "jsonrpc" = some jv)
    (h3 : pyFloat jv = .ok q) (h4 : 2 < q) :
    check_for_errors (.obj kvs) =
      .error (.notImpl "JSON-RPC version not yet supported.") := by
  unfold check_for_errors jsonrpcVersionGuard
  simp [h1, h2, h3, if_pos h4]

/-- Witness for C10: a version-3.0 response carrying a valid result is
still rejected. -/
theorem version_above_two_rejected_witness :
    check_for_errors (.obj [("jsonrpc", .str "3.0"), ("result", .num 1),
        ("id", .num 1)]) =
      .error (.notImpl "JSON-RPC version not yet supported.") :=
  version_above_two_rejected
    [("jsonrpc", .str "3.0"), ("result", .num 1), ("id", .num 1)]
    (.str "3.0") 3 rfl rfl rfl (by decide)

/-!
Response-assembly lemmas for the server dispatch path.
-/

/-- Simplification of the payload built during server response assembly. -/
theorem payload_make_assembly (rid : Json) (cfg : Config) :
    Payload.make rid (some (versionOrConfig none cfg)) cfg =
      ⟨rid, cfg.version⟩ := by
  simp [Payload.make, versionOrConfig, ite_self]

/-- Server response assembly on a plain result value. -/
theorem dump_response_json (pj rid : Json) (cfg : Config)
    (hrid : rid.isNull = false) :
    dump (.json pj) .null rid none true false cfg "" =
      .ok (Payload.response ⟨rid, cfg.version⟩ pj) := by
  unfold dump
  simp [Json.isStr, hrid, DumpParams.isNone, payload_make_assembly]

/-- Server response assembly on a `Fault` value. -/
theorem dump_response_fault (f : Fault) (rid : Json) (cfg : Config) :
    dump (.fault f) .null rid none true false cfg "" =
      .ok (Payload.error ⟨rid, cfg.version⟩ f.faultCode f.faultString
        f.data) := by
  rw [dump_fault_eq, payload_make_assembly]

/-!
Claim C6 — unknown method yields Fault -32601 with the request id echoed.
-/

/-- C6 (confirmed): a validated non-notification request whose method name
resolves neither through the exact-name registry nor through the
registered instance is answered with a response whose error object carries
code -32601 and whose id entry equals the request's id. -/
theorem unknown_method_fault (h : Handler) (request validated : Json)
    (m : String) (rid : Json)
    (hval : validate_request request h.json_config = .ok validated)
    (hm : validated.jget "method" = some (.str m))
    (hid : validated.jget "id" = some rid)
    (hrid1 : rid.isNull = false) (hrid2 : rid.isEmptyStr = false)
    (hres : resolve_method h m ((validated.jget "params").getD .null) =
      none) :
    ∃ resp, h.handle_single_call request = some resp ∧
      resp.jget "id" = some rid ∧
      resp.jget "error" = some (.obj [("code", .num (-32601)),
        ("message", .str ("Method " ++ m ++ " not supported."))]) := by
  unfold Handler.handle_single_call
  simp only [hval]
  unfold Handler.dispatch_caller_single Handler.dispatchMethod
  have hk : validated.hasKeyJ "id" = true := by
    unfold Json.hasKeyJ; rw [hid]; rfl
  rw [hm, hid]
  by_cases hc : ¬validated.hasKeyJ "jsonrpc" = true ∧
      h.json_config.version ≥ 2
  · simp only [if_pos hc]
    simp [hk, hres, hrid1, hrid2, Handler.make_fault]
    rw [dump_response_fault, payload_error_mk_cases]
    rw [if_neg (by norm_num : ¬(2 : Rat) ≤
      ({ version := 1 } : Config).version)]
    exact ⟨_, rfl, rfl, by simp [Json.jget, lookupKey, errEntries,
      Json.isNull]⟩
  · simp only [if_neg hc]
    simp [hk, hres, hrid1, hrid2, Handler.make_fault]
    rw [dump_response_fault, payload_error_mk_cases]
    by_cases hv : (2 : Rat) ≤ h.json_config.version
    · rw [if_pos hv]
      exact ⟨_, rfl, rfl, by simp [Json.jget, lookupKey, errEntries,
        Json.isNull]⟩
    · rw [if_neg hv]
      exact ⟨_, rfl, rfl, by simp [Json.jget, lookupKey, errEntries,
        Json.isNull]⟩

/-- Witness for C6: the unknown method `"foobar"` on an empty registry,
with id 5 echoed. -/
theorem unknown_method_fault_witness :
    ∃ resp, Handler.handle_single_call ⟨⟨2⟩, [], none, false⟩
        (.obj [("jsonrpc", .str "2.0"), ("method", .str "foobar"),
               ("id", .num 5)]) = some resp ∧
      resp.jget "id" = some (.num 5) ∧
      resp.jget "error" = some (.obj [("code", .num (-32601)),
        ("message", .str ("Method " ++ "foobar" ++ " not supported."))]) :=
  unknown_method_fault ⟨⟨2⟩, [], none, false⟩
    (.obj [("jsonrpc", .str "2.0"), ("method", .str "foobar"),
           ("id", .num 5)])
    (.obj [("jsonrpc", .str "2.0"), ("method", .str "foobar"),
           ("id", .num 5), ("params", .arr [])])
    "foobar" (.num 5) rfl rfl rfl rfl rfl rfl

/-!
Claim C9 — empty-string id is a server-side notification marker.
-/

/-- C9 (confirmed): a validated single request whose id entry equals the
empty string is treated by the server dispatch as a notification — no
response is produced, exactly as for an absent or null id — although the
client-side `isnotification` recognises only absent or null ids, not the
empty string. -/
theorem empty_string_id_notification (h : Handler)
    (request validated : Json) (kvs : List (String × Json))
    (hval : validate_request request h.json_config = .ok validated)
    (hid : validated.jget "id" = some (.str ""))
    (hkvs : lookupKey kvs "id" = some (.str "")) :
    h.handle_single_call request = none ∧ isnotification kvs = false := by
  constructor
  · unfold Handler.handle_single_call
    simp only [hval]
    unfold Handler.dispatch_caller_single
    rw [hid]
    have hk : validated.hasKeyJ "id" = true := by
      unfold Json.hasKeyJ; rw [hid]; rfl
    simp [hk, Json.isEmptyStr, Json.isNull]
  · unfold isnotification
    simp only [hkvs]
    rfl

/-- Witness for C9: an otherwise-valid call with id `""` yields no
response on a pool-less handler, while `isnotification` answers false. -/
theorem empty_string_id_notification_witness :
    Handler.handle_single_call ⟨⟨2⟩, [], none, false⟩
      (.obj [("jsonrpc", .str "2.0"), ("method", .str "ping"),
             ("params", .arr []), ("id", .str "")]) = none ∧
    isnotification [("id", .str "")] = false :=
  empty_string_id_notification ⟨⟨2⟩, [], none, false⟩
    (.obj [("jsonrpc", .str "2.0"), ("method", .str "ping"),
           ("params", .arr []), ("id", .str "")])
    (.obj [("jsonrpc", .str "2.0"), ("method", .str "ping"),
           ("params", .arr []), ("id", .str "")])
    [("id", .str "")] rfl rfl rfl

/-!
Claim C5 — per-call version downgrade for jsonrpc-less requests.
-/

/-- Version-1 shape of an assembled server response, for both success and
fault outcomes. -/
theorem assembled_shape_v1 (dp : DumpParams) (rid : Json) (cfg : Config)
    (hrid : rid.isNull = false) (hv : cfg.version < 2) :
    ∃ resp, dump dp .null rid none true false cfg "" = .ok resp ∧
      resp.hasKeyJ "result" = true ∧ resp.hasKeyJ "error" = true ∧
      resp.hasKeyJ "jsonrpc" = false := by
  cases dp with
  | json pj =>
    rw [dump_response_json pj rid cfg hrid, payload_response_mk_cases,
      if_neg (not_le.mpr hv)]
    exact ⟨_, rfl, rfl, rfl, rfl⟩
  | fault f =>
    rw [dump_response_fault, payload_error_mk_cases,
      if_neg (not_le.mpr hv)]
    exact ⟨_, rfl, rfl, rfl, rfl⟩

/-- Version-2 shape of an assembled server response, for both success and
fault outcomes. -/
theorem assembled_shape_v2 (dp : DumpParams) (rid : Json) (cfg : Config)
    (hrid : rid.isNull = false) (hv : 2 ≤ cfg.version) :
    ∃ resp, dump dp .null rid none true false cfg "" = .ok resp ∧
      resp.jget "jsonrpc" = some (.str (verStr cfg.version)) := by
  cases dp with
  | json pj =>
    rw [dump_response_json pj rid cfg hrid, payload_response_mk_cases,
      if_pos hv]
    exact ⟨_, rfl, rfl⟩
  | fault f =>
    rw [dump_response_fault, payload_error_mk_cases, if_pos hv]
    exact ⟨_, rfl, rfl⟩

/-- C5 (confirmed): on a handler configured with version at least 2, a
validated non-notification request without a `"jsonrpc"` key is answered
in version-1 shape (both `result` and `error` keys, no `jsonrpc` tag),
while a request carrying `"jsonrpc"` on the same unchanged handler is
answered in version-2 shape — the downgrade is a per-call configuration
copy, not a change to the server's configured version. -/
theorem version_downgrade_per_call (h : Handler)
    (r1 v1 r2 v2 rid1 rid2 : Json)
    (hver : 2 ≤ h.json_config.version)
    (hval1 : validate_request r1 h.json_config = .ok v1)
    (hnj1 : v1.hasKeyJ "jsonrpc" = false)
    (hid1 : v1.jget "id" = some rid1)
    (h11 : rid1.isNull = false) (h12 : rid1.isEmptyStr = false)
    (hval2 : validate_request r2 h.json_config = .ok v2)
    (hj2 : v2.hasKeyJ "jsonrpc" = true)
    (hid2 : v2.jget "id" = some rid2)
    (h21 : rid2.isNull = false) (h22 : rid2.isEmptyStr = false) :
    (∃ resp, h.handle_single_call r1 = some resp ∧
      resp.hasKeyJ "result" = true ∧ resp.hasKeyJ "error" = true ∧
      resp.hasKeyJ "jsonrpc" = false) ∧
    (∃ resp, h.handle_single_call r2 = some resp ∧
      resp.jget "jsonrpc" = some (.str (verStr h.json_config.version))) := by
  constructor
  · unfold Handler.handle_single_call
    simp only [hval1]
    unfold Handler.dispatch_caller_single
    rw [hid1]
    have hk : v1.hasKeyJ "id" = true := by
      unfold Json.hasKeyJ; rw [hid1]; rfl
    have hcond : ¬v1.hasKeyJ "jsonrpc" = true ∧
        h.json_config.version ≥ 2 := ⟨by simp [hnj1], hver⟩
    simp only [if_pos hcond]
    simp [hk, h11, h12]
    obtain ⟨resp, hd, ha, hb, hc2⟩ :=
      assembled_shape_v1 _ rid1 ({ version := 1 } : Config) h11
        (by norm_num)
    rw [hd]
    exact ⟨resp, rfl, ha, hb, hc2⟩
  · unfold Handler.handle_single_call
    simp only [hval2]
    unfold Handler.dispatch_caller_single
    rw [hid2]
    have hk : v2.hasKeyJ "id" = true := by
      unfold Json.hasKeyJ; rw [hid2]; rfl
    have hcond : ¬(¬v2.hasKeyJ "jsonrpc" = true ∧
        h.json_config.version ≥ 2) := by simp [hj2]
    simp only [if_neg hcond]
    simp [hk, h21, h22]
    obtain ⟨resp, hd, ha⟩ :=
      assembled_shape_v2 _ rid2 h.json_config h21 hver
    rw [hd]
    exact ⟨resp, rfl, ha⟩

/-- Witness for C5: a jsonrpc-less call and a jsonrpc-tagged call on the
same version-2 handler. -/
theorem version_downgrade_per_call_witness :
    (∃ resp, Handler.handle_single_call ⟨⟨2⟩, [], none, false⟩
        (.obj [("method", .str "m"), ("params", .arr []),
               ("id", .num 1)]) = some resp ∧
      resp.hasKeyJ "result" = true ∧ resp.hasKeyJ "error" = true ∧
      resp.hasKeyJ "jsonrpc" = false) ∧
    (∃ resp, Handler.handle_single_call ⟨⟨2⟩, [], none, false⟩
        (.obj [("jsonrpc", .str "2.0"), ("method", .str "m"),
               ("params", .arr []), ("id", .num 2)]) = some resp ∧
      resp.jget "jsonrpc" =
        some (.str (verStr (Config.mk 2).version))) :=
  version_downgrade_per_call ⟨⟨2⟩, [], none, false⟩
    (.obj [("method", .str "m"), ("params", .arr []), ("id", .num 1)])
    (.obj [("method", .str "m"), ("params", .arr []), ("id", .num 1)])
    (.obj [("jsonrpc", .str "2.0"), ("method", .str "m"),
           ("params", .arr []), ("id", .num 2)])
    (.obj [("jsonrpc", .str "2.0"), ("method", .str "m"),
           ("params", .arr []), ("id", .num 2)])
    (.num 1) (.num 2) (by norm_num) rfl rfl rfl rfl rfl rfl rfl rfl rfl rfl

/-!
Claim C1 — batch responses are the in-order non-empty per-entry outcomes.
-/

/-- C1 (amended): for every non-empty request batch, the response batch is
exactly the in-order sequence of the non-empty per-entry outcomes of the
batch (entries producing no content, i.e. notifications, are skipped), and
when that sequence is empty `handle_request_str` returns no content at
all.  An empty array, however, is answered with a single Fault -32600
response rather than no content. -/
theorem batch_responses_subsequence (h : Handler) (reqs : List Json)
    (hne : reqs ≠ []) :
    h.handle_request_str (.ok (some (.arr reqs))) =
      (if (reqs.filterMap h.handle_single_call).isEmpty then none
       else some (.arr (reqs.filterMap h.handle_single_call))) := by
  unfold Handler.handle_request_str Handler.handle_request_dict
  have ht : pyTruthy (.arr reqs) = true := by
    cases reqs with
    | nil => exact absurd rfl hne
    | cons a t => rfl
  simp only [Option.getD_some, ht]
  by_cases he : (reqs.filterMap h.handle_single_call).isEmpty <;> simp [he]

/-- Witness for C1: a two-entry batch — a call with id 1 and a
notification — answered by the singleton response list. -/
theorem batch_responses_subsequence_witness :
    Handler.handle_request_str ⟨⟨2⟩, [], none, false⟩ (.ok (some (.arr
      [.obj [("jsonrpc", .str "2.0"), ("method", .str "a"), ("id", .num 1)],
       .obj [("jsonrpc", .str "2.0"), ("method", .str "b")]]))) =
      (if (([Json.obj [("jsonrpc", .str "2.0"), ("method", .str "a"),
            ("id", .num 1)],
          Json.obj [("jsonrpc", .str "2.0"), ("method", .str "b")]].filterMap
            (Handler.handle_single_call ⟨⟨2⟩, [], none, false⟩)).isEmpty)
        then none
        else some (.arr ([Json.obj [("jsonrpc", .str "2.0"),
            ("method", .str "a"), ("id", .num 1)],
          Json.obj [("jsonrpc", .str "2.0"), ("method", .str "b")]].filterMap
            (Handler.handle_single_call ⟨⟨2⟩, [], none, false⟩)))) :=
  batch_responses_subsequence ⟨⟨2⟩, [], none, false⟩
    [.obj [("jsonrpc", .str "2.0"), ("method", .str "a"), ("id", .num 1)],
     .obj [("jsonrpc", .str "2.0"), ("method", .str "b")]]
    (fun hc => List.noConfusion hc)

/-- Counterexample to C1 as stated: the empty batch (a JSON array) has an
empty response subsequence yet is answered with a single Fault -32600
response, not with no content. -/
theorem empty_batch_not_no_content :
    Handler.handle_request_str ⟨⟨2⟩, [], none, false⟩
        (.ok (some (.arr []))) =
      some (.obj [("id", .null), ("jsonrpc", .str "2.0"),
        ("error", .obj [("code", .num (-32600)),
          ("message", .str "Request invalid -- no request data.")])]) ∧
    (some (Json.obj [("id", .null), ("jsonrpc", .str "2.0"),
        ("error", .obj [("code", .num (-32600)),
          ("message", .str "Request invalid -- no request data.")])]) :
      Option Json) ≠ none :=
  ⟨rfl, fun hcontra => Option.noConfusion hcontra⟩

end JsonRpc
